import Mathlib

/-!
Verification development for the LLM tool-calling agent runtime of the
openclawgotchi repository.

The embedding below translates, from `src/llm/rate_limits.py` and
`src/llm/litellm_connector.py`:

* the retry-hint parser `_parse_retry_after` and the rate-limit store
  (`record_rate_limit`, `is_limited`, `get_retry_after`, `should_auto_retry`);
* the file-writing tool `write_file` with its protected-path guardrail;
* the agent loop `LiteLLMConnector.call` with its turn budget, tool-call
  budget, loop detection and tool dispatch.

Modelling conventions:

* Python `datetime` instants and second counts are rational numbers
  (seconds since the epoch); `isoformat`/`fromisoformat` round trips on
  values the code itself stored are modelled as the identity.
* Python regular-expression search is modelled by explicit left-to-right
  scanners over the character list of the (lowercased) message; each
  pattern of `_parse_retry_after` gets its own matcher, tried in the
  source's order.  The character classes involved (digits, `[:\s]`,
  `[\d:.]`) are pairwise disjoint from the literals that follow them, so
  the greedy, non-backtracking scanners below have exactly the semantics
  of the Python patterns.
* `datetime.fromisoformat` on the group captured by the absolute-timestamp
  pattern is kept abstract as a function argument `isoF` (returning the
  absolute time in epoch seconds, or `none` when the Python call would
  raise); no claim depends on its behaviour because that pattern turns out
  to be unreachable.
* fallible I/O (the JSON state file, the filesystem) is modelled as
  explicit state passing; the OS-error branches of the Python
  `try/except` blocks are outside the model.
-/

/-! ## Character-level helpers for the retry-hint parser -/

/-- Python `\s` on the ASCII inputs involved: space, tab, LF, CR, VT, FF. -/
def pySpace (c : Char) : Bool :=
  c == ' ' || c == '\t' || c == '\n' || c == '\r' || c == '\x0b' || c == '\x0c'

/-- Value of a digit string, as in Python `int` folding. -/
def digitsToNat (l : List Char) : Nat :=
  l.foldl (fun a c => a * 10 + (c.toNat - 48)) 0

/-- Value of `float("<intPart>.<fracPart>")` as an exact rational. -/
def numVal (intPart fracPart : List Char) : ℚ :=
  (digitsToNat intPart : ℚ) + (digitsToNat fracPart : ℚ) / (10 : ℚ) ^ fracPart.length

/-- Match a literal string at the head of the input; return the remainder. -/
def litP : List Char → List Char → Option (List Char)
  | [], l => some l
  | _ :: _, [] => none
  | p :: ps, c :: cs => if c = p then litP ps cs else none

/-- Match one-or-more characters of a class at the head (greedy), as in
`[...]+`; return the remainder. -/
def classPlus (f : Char → Bool) (l : List Char) : Option (List Char) :=
  if (l.takeWhile f).isEmpty then none else some (l.dropWhile f)

/-- Match `\d+\.?\d*` at the head of the input (greedy), returning the
numeric value of the matched text and the remainder. -/
def matchNumber (l : List Char) : Option (ℚ × List Char) :=
  let intPart := l.takeWhile Char.isDigit
  if intPart.isEmpty then none
  else
    match l.dropWhile Char.isDigit with
    | '.' :: rest2 =>
        some (numVal intPart (rest2.takeWhile Char.isDigit), rest2.dropWhile Char.isDigit)
    | rest1 => some (numVal intPart [], rest1)

/-- Match exactly `n` digits at the head, as in `\d{n}`; return the digits
and the remainder. -/
def exactDigits : Nat → List Char → Option (List Char × List Char)
  | 0, l => some ([], l)
  | _ + 1, [] => none
  | n + 1, c :: cs =>
      if c.isDigit then
        (exactDigits n cs).map (fun p => (c :: p.1, p.2))
      else none

/-- Left-to-right scan: `re.search` semantics, trying the position-anchored
matcher at every suffix (including the empty one) and returning the first
success. -/
def reSearch {α : Type} (f : List Char → Option α) : List Char → Option α
  | [] => f []
  | c :: t =>
    match f (c :: t) with
    | some v => some v
    | none => reSearch f t

/-! ## The five patterns of `_parse_retry_after`, position-anchored -/

/-- Pattern 1, `retry[- ]after[:\s]+(\d+\.?\d*)`, anchored at a position. -/
def p1At (l : List Char) : Option ℚ :=
  (litP "retry".toList l).bind fun l1 =>
    match l1 with
    | c :: l2 =>
        if c = '-' ∨ c = ' ' then
          (litP "after".toList l2).bind fun l3 =>
            (classPlus (fun c => c == ':' || pySpace c) l3).bind fun l4 =>
              (matchNumber l4).map Prod.fst
        else none
    | [] => none

/-- Core of pattern 2 for one alternative keyword: `<kw> in (\d+\.?\d*)\s*s`. -/
def p2Core (kw : List Char) (l : List Char) : Option ℚ :=
  (litP kw l).bind fun l1 =>
    (litP " in ".toList l1).bind fun l2 =>
      (matchNumber l2).bind fun vr =>
        match vr.2.dropWhile pySpace with
        | 's' :: _ => some vr.1
        | _ => none

/-- Pattern 2, `(?:retry|try again) in (\d+\.?\d*)\s*s`, anchored at a
position; the `retry` alternative is tried first, as in the regex. -/
def p2At (l : List Char) : Option ℚ :=
  match p2Core "retry".toList l with
  | some v => some v
  | none => p2Core "try again".toList l

/-- Pattern 3, `retry after (\d+\.?\d*)\s*second`, anchored at a position. -/
def p3At (l : List Char) : Option ℚ :=
  (litP "retry after ".toList l).bind fun l1 =>
    (matchNumber l1).bind fun vr =>
      (litP "second".toList (vr.2.dropWhile pySpace)).map fun _ => vr.1

/-- Pattern 4, `rate_limit_delay[:\s]+(\d+\.?\d*)`, anchored at a position. -/
def p4At (l : List Char) : Option ℚ :=
  (litP "rate_limit_delay".toList l).bind fun l1 =>
    (classPlus (fun c => c == ':' || pySpace c) l1).bind fun l2 =>
      (matchNumber l2).map Prod.fst

/-- Pattern 5, `retry after (\d{4}-\d{2}-\d{2}T[\d:.]+Z?)`, anchored at a
position; returns the captured timestamp text.  Note the literal uppercase
`T` and `Z`, matched against the already-lowercased message. -/
def p5At (l : List Char) : Option (List Char) :=
  (litP "retry after ".toList l).bind fun l1 =>
    (exactDigits 4 l1).bind fun y =>
      (litP "-".toList y.2).bind fun l2 =>
        (exactDigits 2 l2).bind fun mo =>
          (litP "-".toList mo.2).bind fun l3 =>
            (exactDigits 2 l3).bind fun d =>
              (litP "T".toList d.2).bind fun l4 =>
                (classPlus (fun c => c.isDigit || c == ':' || c == '.') l4).bind fun l5 =>
                  let body := l4.takeWhile (fun c => c.isDigit || c == ':' || c == '.')
                  let core := y.1 ++ "-".toList ++ mo.1 ++ "-".toList ++ d.1 ++ "T".toList ++ body
                  match l5 with
                  | 'Z' :: _ => some (core ++ "Z".toList)
                  | _ => some core

/-- Translation of `_parse_retry_after(error_msg)`.  `now` is the current
time in epoch seconds; `isoF` abstracts
`datetime.fromisoformat(group.rstrip('Z'))` as epoch seconds (`none` when
that call would raise).  The five patterns are tried in the source's order
and the first match wins. -/
def _parse_retry_after (now : ℚ) (isoF : List Char → Option ℚ) (error_msg : String) : Option ℚ :=
  if error_msg = "" then none
  else
    let msg := error_msg.toList.map Char.toLower
    match reSearch p1At msg with
    | some v => some v
    | none =>
      match reSearch p2At msg with
      | some v => some v
      | none =>
        match reSearch p3At msg with
        | some v => some v
        | none =>
          match reSearch p4At msg with
          | some v => some v
          | none =>
            match reSearch p5At msg with
            | some group => (isoF group).map fun t => max (t - now) 0
            | none => none

/-! ## The rate-limit store (`src/llm/rate_limits.py`) -/

/-- Threshold below which a parsed retry delay counts as a short limit. -/
def SHORT_LIMIT_THRESHOLD : ℚ := 90

/-- Python `s[:n]` on a string (slicing by code points). -/
def pyTruncate (n : Nat) (s : String) : String := ⟨s.data.take n⟩

/-- One entry of the persisted `rate_limits.json` map, as written by
`record_rate_limit`. -/
structure RateLimitRecord where
  last_hit : ℚ
  retry_seconds : Option ℚ
  reset_at : ℚ
  limit_type : String
  error_preview : Option String
  deriving Repr, DecidableEq

/-- The persisted per-provider map, as an association list in insertion
order (a Python dict). -/
abbrev LimitsData : Type := List (String × RateLimitRecord)

/-- Dict lookup `_limits_data.get(provider)`. -/
def lookupProv : LimitsData → String → Option RateLimitRecord
  | [], _ => none
  | (q, x) :: t, p => if q = p then some x else lookupProv t p

/-- Dict assignment `_limits_data[provider] = rec`. -/
def setProv : LimitsData → String → RateLimitRecord → LimitsData
  | [], p, r => [(p, r)]
  | (q, x) :: t, p, r => if q = p then (p, r) :: t else (q, x) :: setProv t p r

/-- Dict deletion `del _limits_data[provider]` (`clear_limit`). -/
def clear_limit : LimitsData → String → LimitsData
  | [], _ => []
  | (q, x) :: t, p => if q = p then t else (q, x) :: clear_limit t p

/-- Translation of `record_rate_limit(provider, error_msg)` at time `now`:
parse the retry hint, compute `reset_at` and the limit tag, store the
record. -/
def record_rate_limit (isoF : List Char → Option ℚ) (d : LimitsData) (now : ℚ)
    (provider : String) (error_msg : String) : LimitsData :=
  match _parse_retry_after now isoF error_msg with
  | some r =>
      setProv d provider
        { last_hit := now
          retry_seconds := some r
          reset_at := now + r
          limit_type := if r ≤ SHORT_LIMIT_THRESHOLD then "short" else "long"
          error_preview := if error_msg = "" then none else some (pyTruncate 300 error_msg) }
  | none =>
      setProv d provider
        { last_hit := now
          retry_seconds := none
          reset_at := now + 60 * 60
          limit_type := "unknown"
          error_preview := if error_msg = "" then none else some (pyTruncate 300 error_msg) }

/-- Translation of `is_limited(provider)` at time `now`; returns the answer
together with the (possibly auto-cleared) store. -/
def is_limited (d : LimitsData) (now : ℚ) (provider : String) : Bool × LimitsData :=
  match lookupProv d provider with
  | none => (false, d)
  | some rec =>
      if rec.reset_at ≤ now then (false, clear_limit d provider) else (true, d)

/-- Translation of `get_retry_after(provider)` at time `now`: seconds until
the stored reset, clamped at zero, `none` when the provider has no record. -/
def get_retry_after (d : LimitsData) (now : ℚ) (provider : String) : Option ℚ :=
  (lookupProv d provider).map fun rec => max (rec.reset_at - now) 0

/-- Translation of `should_auto_retry(provider)` at time `now`: the wait
time when the remaining window is positive and short, else `none`. -/
def should_auto_retry (d : LimitsData) (now : ℚ) (provider : String) : Option ℚ :=
  match get_retry_after d now provider with
  | none => none
  | some remaining =>
      if remaining ≤ SHORT_LIMIT_THRESHOLD ∧ remaining > 0 then some remaining else none

/-! ## The `write_file` tool (`src/llm/litellm_connector.py`) -/

/-- Maximum accepted write size, in characters (`MAX_WRITE_SIZE = 100 * 1024`). -/
def MAX_WRITE_SIZE : Nat := 100 * 1024

/-- The protected-path fragments (`PROTECTED_FILES`). -/
def PROTECTED_FILES : List String :=
  [".env", "gotchi.db", "src/drivers/", "src/ui/", "src/ui/gotchi_ui.py"]

/-- Does `pat` occur at the head of `l`?  (Helper for the substring test.) -/
def headMatches : List Char → List Char → Bool
  | [], _ => true
  | _ :: _, [] => false
  | a :: as, b :: bs => a == b && headMatches as bs

/-- Python `sub in hay` on strings: substring occurrence. -/
def strContains (hay sub : String) : Bool :=
  let rec go : List Char → Bool
    | [] => headMatches sub.toList []
    | c :: t => headMatches sub.toList (c :: t) || go t
  go hay.toList

/-- Translation of `_is_protected_path(path)`: some protected fragment
occurs in the path string. -/
def _is_protected_path (path : String) : Bool :=
  PROTECTED_FILES.any fun frag => strContains path frag

/-- Python `str.strip()` (whitespace at both ends). -/
def pyStrip (s : String) : String :=
  ⟨((s.data.dropWhile pySpace).reverse.dropWhile pySpace).reverse⟩

/-- A flat filesystem: resolved path → file content (`none` = absent). -/
def Fs : Type := String → Option String

/-- Point update of the filesystem. -/
def Fs.write (fs : Fs) (p : String) (content : String) : Fs :=
  fun q => if q = p then some content else fs q

/-- Translation of `write_file(path, content)`.  `resolve` abstracts the
path normalization (`expanduser`, anchoring relative paths at
`PROJECT_DIR`, `Path.resolve`); the sibling backup path
`p.with_suffix(p.suffix + ".bak")` is the original name with `".bak"`
appended.  Returns the new filesystem and the result string.  The
OS-error branch of the `try/except` is outside the model. -/
def write_file (fs : Fs) (resolve : String → String) (path content : String) :
    Fs × String :=
  if pyStrip path = "" then (fs, "Error: Empty path")
  else if MAX_WRITE_SIZE < content.length then
    (fs, "Error: Content too large (" ++ toString content.length ++ " bytes). Max is " ++
      toString MAX_WRITE_SIZE ++ ".")
  else
    let p := resolve path
    if _is_protected_path p then (fs, "Error: Cannot write to protected file: " ++ path)
    else
      let fs1 :=
        match fs p with
        | some original => Fs.write fs (p ++ ".bak") original
        | none => fs
      (Fs.write fs1 p content, "✓ Wrote " ++ toString content.length ++ " bytes to " ++ path)

/-! ## The agent loop (`LiteLLMConnector.call`) -/

/-- Turn budget of the agent loop (`MAX_TURNS`). -/
def MAX_TURNS : Nat := 40

/-- Hard cap on tool calls per session (`MAX_TOOL_CALLS`). -/
def MAX_TOOL_CALLS : Nat := 50

/-- Capacity of the recent-tool-name ring buffer (`MAX_REPEAT`). -/
def MAX_REPEAT : Nat := 3

/-- Parsed arguments of a tool call.  The lenient JSON parsing of
`tool_call.function.arguments` (malformed payloads and non-dict values
degrade to `{}`) is abstracted: the model receives each call's
already-parsed argument map. -/
abbrev Args : Type := List (String × String)

/-- One provider-issued tool-call request. -/
structure ToolCall where
  id : String
  name : String
  args : Args
  deriving Repr, DecidableEq

/-- One conversation message, as the dicts the loop appends. -/
structure Message where
  role : String
  content : String
  tool_call_id : Option String := none
  name : Option String := none
  tool_calls : List ToolCall := []
  deriving Repr, DecidableEq

/-- Outcome of running a tool implementation: a result string, a
`TypeError` from argument mismatch, or any other exception. -/
inductive ToolOutcome where
  | ok (result : String)
  | typeError (e : String)
  | exn (e : String)
  deriving Repr, DecidableEq

/-- The registered tool names, in `TOOL_MAP` insertion order. -/
def TOOL_NAMES : List String :=
  ["execute_bash", "manage_service", "restart_self", "safe_restart", "check_syntax",
   "read_file", "write_file", "list_directory", "github_remote_file", "restore_from_backup",
   "log_change", "log_error", "remember_fact", "recall_facts", "recall_messages",
   "write_daily_log", "read_skill", "search_skills", "list_skills", "add_scheduled_task",
   "list_scheduled_tasks", "remove_scheduled_task", "check_mail", "send_mail", "send_email",
   "read_email", "git_command", "github_push", "show_face", "add_custom_face", "health_check"]

/-- Tool dispatch: look the name up in `TOOL_MAP`; unknown names and the
two exception branches become the source's textual results.  `impl` is the
abstract behaviour of the registered tool bodies (their side effects are
out of scope of the loop claims). -/
def dispatch (impl : String → Args → ToolOutcome) (name : String) (args : Args) : String :=
  if TOOL_NAMES.contains name then
    match impl name args with
    | .ok s => s
    | .typeError e => "Error: Invalid arguments for " ++ name ++ ": " ++ e
    | .exn e => "Error executing " ++ name ++ ": " ++ e
  else
    "Unknown tool: " ++ name ++ ". Available: " ++ String.intercalate ", " TOOL_NAMES

/-- The synthetic user message injected on loop detection. -/
def stopMessage : String :=
  "STOP. You're repeating the same action. Summarize what you've found so far."

/-- The session-abort result of the tool-call budget. -/
def tooManyToolCallsResult : String := "Error: Too many tool calls. Stopping for safety."

/-- Mutable state of one session (`AgentSession`).  `tracker` is the
rate-limit store threaded through unchanged, so that theorems can observe
that the loop never reads or writes it; `executed` is ghost
instrumentation recording the names of the calls that actually reached
dispatch (the code appends a `_format_tool_action` summary at exactly that
point). -/
structure AgentState where
  toolCallsCount : Nat
  recentTools : List String
  messages : List Message
  toolActions : List String
  tracker : LimitsData
  executed : List String

/-- Push a name onto the ring buffer: append, then `pop(0)` when the
length exceeds the capacity. -/
def pushRecent (r : List String) (n : String) : List String :=
  let r1 := r ++ [n]
  if MAX_REPEAT < r1.length then r1.tail else r1

/-- All entries of a nonempty buffer equal (`len(set(buf)) == 1`). -/
def allEqual : List String → Bool
  | [] => false
  | h :: t => t.all fun x => x == h

/-- Loop-detection test on the updated buffer:
`len(recent_tools) >= MAX_REPEAT and len(set(recent_tools)) == 1`. -/
def loopCond (r : List String) : Bool :=
  decide (MAX_REPEAT ≤ r.length) && allEqual r

/-- Outcome of processing one tool call: continue with the next one, or
abort the whole session with a result string. -/
inductive StepOut where
  | next (s : AgentState)
  | halt (s : AgentState) (result : String)

/-- State carried by a step outcome. -/
def StepOut.state : StepOut → AgentState
  | .next s => s
  | .halt s _ => s

/-- Processing of one requested tool call, in the source's order: increment
the counter and abort past the cap; push onto the ring buffer and, on loop
detection, inject the synthetic user message, reset the buffer and skip
execution; otherwise dispatch and append the (truncated) tool-role result
message.  `fmt` abstracts `_format_tool_action`. -/
def stepToolCall (impl : String → Args → ToolOutcome)
    (fmt : String → Args → String → String) (s : AgentState) (c : ToolCall) : StepOut :=
  let count := s.toolCallsCount + 1
  if MAX_TOOL_CALLS < count then
    .halt { s with toolCallsCount := count } tooManyToolCallsResult
  else
    let r2 := pushRecent s.recentTools c.name
    if loopCond r2 then
      .next { s with toolCallsCount := count, recentTools := [],
                     messages := s.messages ++ [{ role := "user", content := stopMessage }] }
    else
      let result := dispatch impl c.name c.args
      .next { s with toolCallsCount := count, recentTools := r2,
                     toolActions := s.toolActions ++ [fmt c.name c.args (pyTruncate 200 result)],
                     messages := s.messages ++
                       [{ role := "tool", tool_call_id := some c.id, name := some c.name,
                          content := pyTruncate 4000 result }],
                     executed := s.executed ++ [c.name] }

/-- Process the batch of tool calls of one turn, in order, stopping early
on a session abort. -/
def runToolCalls (impl : String → Args → ToolOutcome)
    (fmt : String → Args → String → String) (s : AgentState) : List ToolCall → StepOut
  | [] => .next s
  | c :: cs =>
    match stepToolCall impl fmt s c with
    | .next s' => runToolCalls impl fmt s' cs
    | .halt s' r => .halt s' r

/-- One provider response: an assistant message (content plus requested
tool calls; `None` content is the empty string), or a raised provider
error with its text. -/
inductive ProviderResponse where
  | success (content : String) (tool_calls : List ToolCall)
  | failure (err : String)

/-- Translation of `_build_tool_footer(actions)`. -/
def buildToolFooter (actions : List String) : String :=
  let visible := actions.filter fun a => !(a.startsWith "😎 face:")
  if visible.isEmpty then ""
  else
    String.intercalate "\n"
      (["```", "🔧 Tool usage (" ++ toString visible.length ++ "):"] ++
        (visible.take 8).map (fun a => "  " ++ a.replace "\x60" "\x27") ++
        (if 8 < visible.length then ["  ... +" ++ toString (visible.length - 8) ++ " more"] else []) ++
        ["```"])

/-- The turn loop of `LiteLLMConnector.call`: up to `fuel` remaining turns,
`provider` giving the response to the `turn`-th provider call.  A provider
failure is caught by the per-turn handler and becomes the
"Error connecting to LLM" text; a response without tool calls is the final
answer plus the tool-usage footer; exhausting the budget yields the fixed
maximum-turns message. -/
def runTurns (impl : String → Args → ToolOutcome) (fmt : String → Args → String → String)
    (provider : Nat → ProviderResponse) :
    Nat → Nat → AgentState → AgentState × String
  | 0, _, s => (s, "Error: Maximum turns reached.")
  | fuel + 1, turn, s =>
    match provider turn with
    | .failure e => (s, "Error connecting to LLM: " ++ e)
    | .success content calls =>
      let s1 := { s with messages := s.messages ++
                    [{ role := "assistant", content := content, tool_calls := calls }] }
      if calls.isEmpty then
        (s1, content ++ buildToolFooter s1.toolActions)
      else
        match runToolCalls impl fmt s1 calls with
        | .halt s2 r => (s2, r)
        | .next s2 => runTurns impl fmt provider fuel (turn + 1) s2

/-- The seeded session state: system message (its content, built by the
prompts module, is taken as given), the history pairs, then the user
message. -/
def initState (sysContent : String) (history : List (String × String)) (prompt : String)
    (tracker : LimitsData) : AgentState :=
  { toolCallsCount := 0
    recentTools := []
    toolActions := []
    executed := []
    tracker := tracker
    messages := { role := "system", content := sysContent } ::
      (history.map fun rc => { role := rc.1, content := rc.2 : Message }) ++
      [{ role := "user", content := prompt }] }

/-- Translation of the entry point `LiteLLMConnector.call`.  When the lazy
`from litellm import acompletion` fails, the method raises
`LLMError("litellm not installed")`, modelled as the `Except.error`
branch; otherwise the turn loop runs with the full budget.  The final
`AgentState` is returned alongside the result string so that
specifications can observe it. -/
def LiteLLMConnector.call (litellmInstalled : Bool)
    (impl : String → Args → ToolOutcome) (fmt : String → Args → String → String)
    (provider : Nat → ProviderResponse) (sysContent : String)
    (history : List (String × String)) (prompt : String) (tracker : LimitsData) :
    Except String (AgentState × String) :=
  if litellmInstalled then
    .ok (runTurns impl fmt provider MAX_TURNS 0 (initState sysContent history prompt tracker))
  else
    .error "litellm not installed"

/-! ## Concrete objects used by witnesses and counterexamples -/

/-- Abstract ISO-timestamp interpretation that always raises. -/
def isoNone : List Char → Option ℚ := fun _ => none

/-! ## Nonnegativity of parsed retry delays -/

theorem numVal_nonneg (a b : List Char) : 0 ≤ numVal a b := by
  unfold numVal
  positivity

theorem matchNumber_nonneg {l : List Char} {p : ℚ × List Char}
    (h : matchNumber l = some p) : 0 ≤ p.1 := by
  simp only [matchNumber] at h
  by_cases hI : (l.takeWhile Char.isDigit).isEmpty = true
  · rw [if_pos hI] at h
    cases h
  · rw [if_neg hI] at h
    split at h <;> (cases h; exact numVal_nonneg _ _)

theorem p1At_nonneg {l : List Char} {v : ℚ} (h : p1At l = some v) : 0 ≤ v := by
  unfold p1At at h
  rw [Option.bind_eq_some] at h
  obtain ⟨l1, -, h⟩ := h
  split at h
  · split at h
    · rw [Option.bind_eq_some] at h
      obtain ⟨l3, -, h⟩ := h
      rw [Option.bind_eq_some] at h
      obtain ⟨l4, -, h⟩ := h
      rw [Option.map_eq_some'] at h
      obtain ⟨pr, hpr, rfl⟩ := h
      exact matchNumber_nonneg hpr
    · cases h
  · cases h

theorem p2Core_nonneg {kw l : List Char} {v : ℚ} (h : p2Core kw l = some v) : 0 ≤ v := by
  unfold p2Core at h
  rw [Option.bind_eq_some] at h
  obtain ⟨l1, -, h⟩ := h
  rw [Option.bind_eq_some] at h
  obtain ⟨l2, -, h⟩ := h
  rw [Option.bind_eq_some] at h
  obtain ⟨vr, hvr, h⟩ := h
  split at h
  · cases h; exact matchNumber_nonneg hvr
  · cases h

theorem p2At_nonneg {l : List Char} {v : ℚ} (h : p2At l = some v) : 0 ≤ v := by
  unfold p2At at h
  split at h
  · cases h
    next heq => exact p2Core_nonneg heq
  · exact p2Core_nonneg h

theorem p3At_nonneg {l : List Char} {v : ℚ} (h : p3At l = some v) : 0 ≤ v := by
  unfold p3At at h
  rw [Option.bind_eq_some] at h
  obtain ⟨l1, -, h⟩ := h
  rw [Option.bind_eq_some] at h
  obtain ⟨vr, hvr, h⟩ := h
  rw [Option.map_eq_some'] at h
  obtain ⟨-, -, rfl⟩ := h
  exact matchNumber_nonneg hvr

theorem p4At_nonneg {l : List Char} {v : ℚ} (h : p4At l = some v) : 0 ≤ v := by
  unfold p4At at h
  rw [Option.bind_eq_some] at h
  obtain ⟨l1, -, h⟩ := h
  rw [Option.bind_eq_some] at h
  obtain ⟨l2, -, h⟩ := h
  rw [Option.map_eq_some'] at h
  obtain ⟨pr, hpr, rfl⟩ := h
  exact matchNumber_nonneg hpr

theorem reSearch_some {α : Type} {f : List Char → Option α} {P : α → Prop}
    (hf : ∀ l v, f l = some v → P v) :
    ∀ {l : List Char} {v : α}, reSearch f l = some v → P v := by
  intro l
  induction l with
  | nil =>
    intro v h
    rw [reSearch] at h
    exact hf [] v h
  | cons c t ih =>
    intro v h
    rw [reSearch] at h
    rcases hfc : f (c :: t) with - | w
    · rw [hfc] at h
      exact ih h
    · rw [hfc] at h
      cases h
      exact hf _ _ hfc

theorem parse_retry_after_nonneg {now : ℚ} {isoF : List Char → Option ℚ}
    {msg : String} {v : ℚ} (h : _parse_retry_after now isoF msg = some v) : 0 ≤ v := by
  simp only [_parse_retry_after] at h
  split at h
  · cases h
  · split at h
    · cases h
      next heq => exact reSearch_some (fun _ _ => p1At_nonneg) heq
    · split at h
      · cases h
        next heq => exact reSearch_some (fun _ _ => p2At_nonneg) heq
      · split at h
        · cases h
          next heq => exact reSearch_some (fun _ _ => p3At_nonneg) heq
        · split at h
          · cases h
            next heq => exact reSearch_some (fun _ _ => p4At_nonneg) heq
          · split at h
            · rw [Option.map_eq_some'] at h
              obtain ⟨t, -, rfl⟩ := h
              exact le_max_right _ _
            · cases h

/-! ## Lookup lemmas for the provider map -/

theorem lookupProv_setProv_self (d : LimitsData) (p : String) (r : RateLimitRecord) :
    lookupProv (setProv d p r) p = some r := by
  induction d with
  | nil => simp [setProv, lookupProv]
  | cons hd t ih =>
    obtain ⟨q, x⟩ := hd
    by_cases h : q = p <;> simp [setProv, lookupProv, h, ih]

theorem numVal_eval (a : List Char) (n : Nat) (h : digitsToNat a = n) :
    numVal a [] = n := by
  unfold numVal
  rw [h]
  norm_num [digitsToNat]

/-! ## Claim C4 -/

/-- Claim C4: immediately after `record(p, text)` with a parseable retry
hint `N`, `get_retry_after(p)` reports exactly `N` (hence within any
epsilon), and `is_limited(p)` is false once current time passes the stored
`reset_at = now + N`; for every error text the parser does not match,
`record` stores `reset_at = now + 60min`, strictly in the future and never
null. -/
theorem rate_limit_record_spec (isoF : List Char → Option ℚ) (d : LimitsData)
    (now : ℚ) (p : String) :
    (∀ text N, _parse_retry_after now isoF text = some N →
       get_retry_after (record_rate_limit isoF d now p text) now p = some N ∧
       ∀ t, now + N ≤ t → (is_limited (record_rate_limit isoF d now p text) t p).1 = false) ∧
    (∀ text, _parse_retry_after now isoF text = none →
       ∃ rec, lookupProv (record_rate_limit isoF d now p text) p = some rec ∧
         rec.reset_at = now + 60 * 60 ∧ now < rec.reset_at) := by
  constructor
  · intro text N hp
    have hN : 0 ≤ N := parse_retry_after_nonneg hp
    have hrw : record_rate_limit isoF d now p text =
        setProv d p
          { last_hit := now, retry_seconds := some N, reset_at := now + N,
            limit_type := if N ≤ SHORT_LIMIT_THRESHOLD then "short" else "long",
            error_preview := if text = "" then none else some (pyTruncate 300 text) } := by
      simp only [record_rate_limit, hp]
    refine ⟨?_, ?_⟩
    · rw [hrw]
      simp only [get_retry_after, lookupProv_setProv_self, Option.map_some']
      rw [add_sub_cancel_left, max_eq_left hN]
    · intro t ht
      rw [hrw]
      simp only [is_limited, lookupProv_setProv_self]
      rw [if_pos ht]
  · intro text hp
    have hrw : record_rate_limit isoF d now p text =
        setProv d p
          { last_hit := now, retry_seconds := none, reset_at := now + 60 * 60,
            limit_type := "unknown",
            error_preview := if text = "" then none else some (pyTruncate 300 text) } := by
      simp only [record_rate_limit, hp]
    rw [hrw]
    exact ⟨_, lookupProv_setProv_self d p _, rfl, lt_add_of_pos_right now (by norm_num)⟩

/-- Witness for C4 at a concrete provider, hint text and times. -/
theorem rate_limit_record_spec_witness :
    get_retry_after (record_rate_limit isoNone [] 0 "litellm" "retry in 5s") 0 "litellm" =
      some 5 ∧
    (is_limited (record_rate_limit isoNone [] 0 "litellm" "retry in 5s") 6 "litellm").1 = false ∧
    ∃ rec, lookupProv (record_rate_limit isoNone [] 0 "litellm" "oops") "litellm" = some rec ∧
      rec.reset_at = 0 + 60 * 60 ∧ (0 : ℚ) < rec.reset_at := by
  have hp : _parse_retry_after 0 isoNone "retry in 5s" = some 5 := by
    have h0 : _parse_retry_after 0 isoNone "retry in 5s" = some (numVal ['5'] []) := rfl
    rw [h0, numVal_eval ['5'] 5 (by decide)]
    norm_num
  obtain ⟨h1, h2⟩ :=
    (rate_limit_record_spec isoNone [] 0 "litellm").1 "retry in 5s" 5 hp
  exact ⟨h1, h2 6 (by norm_num),
    (rate_limit_record_spec isoNone [] 0 "litellm").2 "oops" rfl⟩

/-! ## Claim C5 -/

theorem should_auto_retry_after_record (isoF : List Char → Option ℚ) (d : LimitsData)
    (now : ℚ) (p : String) (text : String) (N : ℚ)
    (hp : _parse_retry_after now isoF text = some N) :
    should_auto_retry (record_rate_limit isoF d now p text) now p =
      if N ≤ SHORT_LIMIT_THRESHOLD ∧ N > 0 then some N else none := by
  have hN := parse_retry_after_nonneg hp
  unfold should_auto_retry get_retry_after
  simp only [record_rate_limit, hp, lookupProv_setProv_self, Option.map_some']
  rw [add_sub_cancel_left, max_eq_left hN]

/-- Claim C5 (amended): `record` tags a parsed delay at or below 90 seconds
as "short", a longer parsed delay as "long" and an unparseable text as
"unknown"; `should_auto_retry(p)` returns a positive wait exactly when the
remaining window at query time is positive and at most 90 seconds,
regardless of the stored tag.  Immediately after recording this coincides
with the "short" tag (a fresh "long" or "unknown" limit is not
auto-retried), but it is not tag-based: once a long or unknown limit has
decayed below the threshold, auto-retry is proposed for it too. -/
theorem rate_limit_classification_spec (isoF : List Char → Option ℚ) (d : LimitsData)
    (now : ℚ) (p : String) :
    (∀ text N, _parse_retry_after now isoF text = some N →
       (lookupProv (record_rate_limit isoF d now p text) p).map RateLimitRecord.limit_type =
         some (if N ≤ SHORT_LIMIT_THRESHOLD then "short" else "long")) ∧
    (∀ text, _parse_retry_after now isoF text = none →
       (lookupProv (record_rate_limit isoF d now p text) p).map RateLimitRecord.limit_type =
         some "unknown") ∧
    (∀ (d' : LimitsData) (t w : ℚ), should_auto_retry d' t p = some w ↔
       ∃ rec, lookupProv d' p = some rec ∧ w = max (rec.reset_at - t) 0 ∧
         0 < w ∧ w ≤ SHORT_LIMIT_THRESHOLD) ∧
    (∀ text N, _parse_retry_after now isoF text = some N → 0 < N →
       N ≤ SHORT_LIMIT_THRESHOLD →
       should_auto_retry (record_rate_limit isoF d now p text) now p = some N) ∧
    (∀ text N, _parse_retry_after now isoF text = some N → SHORT_LIMIT_THRESHOLD < N →
       should_auto_retry (record_rate_limit isoF d now p text) now p = none) ∧
    (∀ text, _parse_retry_after now isoF text = none →
       should_auto_retry (record_rate_limit isoF d now p text) now p = none) := by
  refine ⟨?_, ?_, ?_, ?_, ?_, ?_⟩
  · intro text N hp
    simp only [record_rate_limit, hp, lookupProv_setProv_self, Option.map_some']
  · intro text hp
    simp only [record_rate_limit, hp, lookupProv_setProv_self, Option.map_some']
  · intro d' t w
    unfold should_auto_retry get_retry_after
    rcases hL : lookupProv d' p with - | rec
    · simp
    · simp only [Option.map_some']
      by_cases hc : max (rec.reset_at - t) 0 ≤ SHORT_LIMIT_THRESHOLD ∧
          max (rec.reset_at - t) 0 > 0
      · rw [if_pos hc]
        constructor
        · intro h
          cases h
          exact ⟨rec, rfl, rfl, hc.2, hc.1⟩
        · rintro ⟨rec', hrec', hw, -, -⟩
          cases hrec'
          rw [hw]
      · rw [if_neg hc]
        constructor
        · intro h
          cases h
        · rintro ⟨rec', hrec', hw, h0, h90⟩
          cases hrec'
          exact absurd ⟨hw ▸ h90, hw ▸ h0⟩ hc
  · intro text N hp h0 h90
    rw [should_auto_retry_after_record isoF d now p text N hp, if_pos ⟨h90, h0⟩]
  · intro text N hp hlong
    rw [should_auto_retry_after_record isoF d now p text N hp, if_neg]
    rintro ⟨h1, -⟩
    exact absurd h1 (not_le.mpr hlong)
  · intro text hp
    unfold should_auto_retry get_retry_after
    simp only [record_rate_limit, hp, lookupProv_setProv_self, Option.map_some']
    rw [add_sub_cancel_left, max_eq_left (by norm_num : (0:ℚ) ≤ 60 * 60), if_neg]
    rintro ⟨h1, -⟩
    norm_num [SHORT_LIMIT_THRESHOLD] at h1

/-- Counterexample for C5 as stated: a limit recorded from "retry in 600s"
is tagged "long", yet 550 seconds later `should_auto_retry` proposes a
positive 50-second auto-retry wait for it, because the check is on the
remaining window, not the stored tag. -/
theorem should_auto_retry_long_limit_counterexample :
    (lookupProv (record_rate_limit isoNone [] 0 "glm" "retry in 600s") "glm").map
        RateLimitRecord.limit_type = some "long" ∧
    should_auto_retry (record_rate_limit isoNone [] 0 "glm" "retry in 600s") 550 "glm" =
      some 50 := by
  have hp : _parse_retry_after 0 isoNone "retry in 600s" = some 600 := by
    have h0 : _parse_retry_after 0 isoNone "retry in 600s" =
        some (numVal ['6', '0', '0'] []) := rfl
    rw [h0, numVal_eval _ 600 (by decide)]
    norm_num
  constructor
  · simp only [record_rate_limit, hp, lookupProv_setProv_self, Option.map_some']
    rw [if_neg (by norm_num [SHORT_LIMIT_THRESHOLD])]
  · unfold should_auto_retry get_retry_after
    simp only [record_rate_limit, hp, lookupProv_setProv_self, Option.map_some']
    have hmax : max ((0:ℚ) + 600 - 550) 0 = 50 := by norm_num
    rw [hmax,
      if_pos (⟨by norm_num [SHORT_LIMIT_THRESHOLD], by norm_num⟩ :
        (50:ℚ) ≤ SHORT_LIMIT_THRESHOLD ∧ (50:ℚ) > 0)]

/-- Witness for C5 (amended) at concrete texts and times. -/
theorem rate_limit_classification_spec_witness :
    (lookupProv (record_rate_limit isoNone [] 7 "w5" "retry in 5s") "w5").map
        RateLimitRecord.limit_type = some "short" ∧
    (lookupProv (record_rate_limit isoNone [] 7 "w5" "nope") "w5").map
        RateLimitRecord.limit_type = some "unknown" ∧
    should_auto_retry (record_rate_limit isoNone [] 7 "w5" "retry in 5s") 7 "w5" = some 5 ∧
    should_auto_retry (record_rate_limit isoNone [] 7 "w5" "retry in 600s") 7 "w5" = none ∧
    should_auto_retry (record_rate_limit isoNone [] 7 "w5" "nope") 7 "w5" = none := by
  have hp5 : _parse_retry_after 7 isoNone "retry in 5s" = some 5 := by
    have h0 : _parse_retry_after 7 isoNone "retry in 5s" = some (numVal ['5'] []) := rfl
    rw [h0, numVal_eval _ 5 (by decide)]
    norm_num
  have hp600 : _parse_retry_after 7 isoNone "retry in 600s" = some 600 := by
    have h0 : _parse_retry_after 7 isoNone "retry in 600s" =
        some (numVal ['6', '0', '0'] []) := rfl
    rw [h0, numVal_eval _ 600 (by decide)]
    norm_num
  obtain ⟨c1, c2, c3, c4, c5, c6⟩ := rate_limit_classification_spec isoNone [] 7 "w5"
  refine ⟨?_, c2 "nope" rfl,
    c4 "retry in 5s" 5 hp5 (by norm_num) (by norm_num [SHORT_LIMIT_THRESHOLD]),
    c5 "retry in 600s" 600 hp600 (by norm_num [SHORT_LIMIT_THRESHOLD]),
    c6 "nope" rfl⟩
  rw [c1 "retry in 5s" 5 hp5, if_pos (by norm_num [SHORT_LIMIT_THRESHOLD])]

/-! ## Claim C6 -/

/-- Claim C6 (code bug): the parser tries its patterns in a fixed order and
the first match wins, but for an absolute-timestamp text of the form
"retry after <ISO timestamp>" the header-style pattern 1 matches the
leading year digits first, so the parsed delay is the year number in
seconds (here 2025), independent of the current time and of the timestamp
interpretation — not the timestamp minus the current time.  The ISO
pattern 5 is unreachable (pattern 1 shadows it, and its literal `T`/`Z`
can never occur in the lowercased message). -/
theorem parse_retry_after_iso_timestamp_bug (now : ℚ) (isoF : List Char → Option ℚ) :
    _parse_retry_after now isoF "Please retry after 2025-01-15T12:00:00Z" = some 2025 := by
  have h0 : _parse_retry_after now isoF "Please retry after 2025-01-15T12:00:00Z" =
      some (numVal ['2', '0', '2', '5'] []) := rfl
  rw [h0, numVal_eval _ 2025 (by decide)]
  norm_num

/-! ## Claim C7 -/

/-- Claim C7: a `write_file` call whose resolved target is a protected path
returns a rejection string and modifies nothing; an accepted write to an
existing unprotected file creates exactly one backup copy of the original
content at the sibling `.bak` path, writes the new content to the target,
touches no other path, and reports success. -/
theorem write_file_guardrails_spec (fs : Fs) (resolve : String → String)
    (path content : String) :
    (_is_protected_path (resolve path) = true →
       (write_file fs resolve path content).1 = fs ∧
       ((write_file fs resolve path content).2 = "Error: Empty path" ∨
        (write_file fs resolve path content).2 =
          "Error: Content too large (" ++ toString content.length ++ " bytes). Max is " ++
            toString MAX_WRITE_SIZE ++ "." ∨
        (write_file fs resolve path content).2 =
          "Error: Cannot write to protected file: " ++ path)) ∧
    (∀ original, pyStrip path ≠ "" → content.length ≤ MAX_WRITE_SIZE →
       _is_protected_path (resolve path) = false → fs (resolve path) = some original →
       (write_file fs resolve path content).1 (resolve path ++ ".bak") = some original ∧
       (write_file fs resolve path content).1 (resolve path) = some content ∧
       (∀ q, q ≠ resolve path → q ≠ resolve path ++ ".bak" →
          (write_file fs resolve path content).1 q = fs q) ∧
       (write_file fs resolve path content).2 =
         "✓ Wrote " ++ toString content.length ++ " bytes to " ++ path) := by
  constructor
  · intro hprot
    simp only [write_file]
    by_cases h1 : pyStrip path = ""
    · rw [if_pos h1]
      exact ⟨rfl, Or.inl rfl⟩
    · rw [if_neg h1]
      by_cases h2 : MAX_WRITE_SIZE < content.length
      · rw [if_pos h2]
        exact ⟨rfl, Or.inr (Or.inl rfl)⟩
      · rw [if_neg h2, if_pos hprot]
        exact ⟨rfl, Or.inr (Or.inr rfl)⟩
  · intro original hne hlen hnp hex
    have hbakne : resolve path ++ ".bak" ≠ resolve path := by
      intro h
      have hl := congrArg String.length h
      have h4 : (".bak" : String).length = 4 := rfl
      rw [String.length_append, h4] at hl
      omega
    have hw : write_file fs resolve path content =
        (Fs.write (Fs.write fs (resolve path ++ ".bak") original) (resolve path) content,
         "✓ Wrote " ++ toString content.length ++ " bytes to " ++ path) := by
      simp only [write_file, hex]
      rw [if_neg hne, if_neg (not_lt.mpr hlen), if_neg (by simp [hnp])]
    rw [hw]
    refine ⟨?_, ?_, ?_, rfl⟩
    · simp [Fs.write, hbakne]
    · simp [Fs.write]
    · intro q hq1 hq2
      simp [Fs.write, hq1, hq2]

/-- Sample filesystem holding one unprotected file, for the C7 witness. -/
def sampleFs : Fs := fun q => if q = "notes/todo.txt" then some "old" else none

/-- Witness for C7: a protected write to ".env" is rejected and changes
nothing; an accepted write to the existing "notes/todo.txt" backs up the
old content and lands the new one. -/
theorem write_file_guardrails_spec_witness :
    (write_file sampleFs id ".env" "x").1 = sampleFs ∧
    (write_file sampleFs id "notes/todo.txt" "new").1 ("notes/todo.txt" ++ ".bak") =
      some "old" ∧
    (write_file sampleFs id "notes/todo.txt" "new").1 "notes/todo.txt" = some "new" := by
  obtain ⟨hb, hc, -, -⟩ :=
    (write_file_guardrails_spec sampleFs id "notes/todo.txt" "new").2 "old"
      (by decide) (by decide) (by decide) (by decide)
  exact ⟨((write_file_guardrails_spec sampleFs id ".env" "x").1 (by decide)).1, hb, hc⟩

/-! ## Step lemmas for the agent loop -/

theorem stepToolCall_count (impl : String → Args → ToolOutcome)
    (fmt : String → Args → String → String) (s : AgentState) (c : ToolCall) :
    (stepToolCall impl fmt s c).state.toolCallsCount = s.toolCallsCount + 1 := by
  simp only [stepToolCall]
  split
  · rfl
  · split <;> rfl

theorem stepToolCall_tracker (impl : String → Args → ToolOutcome)
    (fmt : String → Args → String → String) (s : AgentState) (c : ToolCall) :
    (stepToolCall impl fmt s c).state.tracker = s.tracker := by
  simp only [stepToolCall]
  split
  · rfl
  · split <;> rfl

theorem stepToolCall_halt_of_cap (impl : String → Args → ToolOutcome)
    (fmt : String → Args → String → String) (s : AgentState) (c : ToolCall)
    (h : MAX_TOOL_CALLS ≤ s.toolCallsCount) :
    stepToolCall impl fmt s c =
      .halt { s with toolCallsCount := s.toolCallsCount + 1 } tooManyToolCallsResult := by
  simp only [stepToolCall]
  rw [if_pos (Nat.lt_succ_of_le h)]

theorem stepToolCall_suppress (impl : String → Args → ToolOutcome)
    (fmt : String → Args → String → String) (s : AgentState) (c : ToolCall)
    (hcap : s.toolCallsCount + 1 ≤ MAX_TOOL_CALLS)
    (hloop : loopCond (pushRecent s.recentTools c.name) = true) :
    stepToolCall impl fmt s c =
      .next { s with toolCallsCount := s.toolCallsCount + 1, recentTools := [],
                     messages := s.messages ++ [{ role := "user", content := stopMessage }] } := by
  simp only [stepToolCall]
  rw [if_neg (not_lt.mpr hcap), if_pos hloop]

theorem stepToolCall_exec (impl : String → Args → ToolOutcome)
    (fmt : String → Args → String → String) (s : AgentState) (c : ToolCall)
    (hcap : s.toolCallsCount + 1 ≤ MAX_TOOL_CALLS)
    (hloop : loopCond (pushRecent s.recentTools c.name) = false) :
    stepToolCall impl fmt s c =
      .next { s with toolCallsCount := s.toolCallsCount + 1,
                     recentTools := pushRecent s.recentTools c.name,
                     toolActions := s.toolActions ++
                       [fmt c.name c.args (pyTruncate 200 (dispatch impl c.name c.args))],
                     messages := s.messages ++
                       [{ role := "tool", tool_call_id := some c.id, name := some c.name,
                          content := pyTruncate 4000 (dispatch impl c.name c.args) }],
                     executed := s.executed ++ [c.name] } := by
  simp only [stepToolCall]
  rw [if_neg (not_lt.mpr hcap), if_neg (by simp [hloop])]

theorem stepToolCall_next_inv (impl : String → Args → ToolOutcome)
    (fmt : String → Args → String → String) {s s' : AgentState} {c : ToolCall}
    (h1 : s.executed.length ≤ s.toolCallsCount) (h2 : s.toolCallsCount ≤ MAX_TOOL_CALLS)
    (h : stepToolCall impl fmt s c = .next s') :
    s'.executed.length ≤ s'.toolCallsCount ∧ s'.toolCallsCount ≤ MAX_TOOL_CALLS := by
  simp only [stepToolCall] at h
  by_cases hcap : MAX_TOOL_CALLS < s.toolCallsCount + 1
  · rw [if_pos hcap] at h
    cases h
  · rw [if_neg hcap] at h
    split at h
    · cases h
      exact ⟨le_trans h1 (Nat.le_succ _), not_lt.mp hcap⟩
    · cases h
      refine ⟨?_, not_lt.mp hcap⟩
      simpa using Nat.succ_le_succ h1

theorem stepToolCall_halt_bound (impl : String → Args → ToolOutcome)
    (fmt : String → Args → String → String) {s s' : AgentState} {c : ToolCall} {r : String}
    (h1 : s.executed.length ≤ s.toolCallsCount) (hcap2 : s.toolCallsCount ≤ MAX_TOOL_CALLS)
    (h : stepToolCall impl fmt s c = .halt s' r) :
    s'.executed.length ≤ MAX_TOOL_CALLS ∧ r = tooManyToolCallsResult := by
  simp only [stepToolCall] at h
  by_cases hcap : MAX_TOOL_CALLS < s.toolCallsCount + 1
  · rw [if_pos hcap] at h
    cases h
    exact ⟨le_trans h1 hcap2, rfl⟩
  · rw [if_neg hcap] at h
    split at h <;> cases h

theorem runToolCalls_tracker (impl : String → Args → ToolOutcome)
    (fmt : String → Args → String → String) :
    ∀ (cs : List ToolCall) (s : AgentState),
      (runToolCalls impl fmt s cs).state.tracker = s.tracker := by
  intro cs
  induction cs with
  | nil => intro s; rfl
  | cons c cs ih =>
    intro s
    rcases hstep : stepToolCall impl fmt s c with s1 | ⟨s1, r1⟩
    · simp only [runToolCalls, hstep]
      rw [ih s1]
      have ht := stepToolCall_tracker impl fmt s c
      rw [hstep] at ht
      exact ht
    · simp only [runToolCalls, hstep]
      have ht := stepToolCall_tracker impl fmt s c
      rw [hstep] at ht
      exact ht

theorem runToolCalls_inv (impl : String → Args → ToolOutcome)
    (fmt : String → Args → String → String) :
    ∀ (cs : List ToolCall) (s : AgentState),
      s.executed.length ≤ s.toolCallsCount → s.toolCallsCount ≤ MAX_TOOL_CALLS →
      (∀ s', runToolCalls impl fmt s cs = .next s' →
         s'.executed.length ≤ s'.toolCallsCount ∧ s'.toolCallsCount ≤ MAX_TOOL_CALLS) ∧
      (∀ s' r, runToolCalls impl fmt s cs = .halt s' r →
         s'.executed.length ≤ MAX_TOOL_CALLS) := by
  intro cs
  induction cs with
  | nil =>
    intro s h1 h2
    constructor
    · intro s' h
      cases h
      exact ⟨h1, h2⟩
    · intro s' r h
      cases h
  | cons c cs ih =>
    intro s h1 h2
    rcases hstep : stepToolCall impl fmt s c with s1 | ⟨s1, r1⟩
    · simp only [runToolCalls, hstep]
      obtain ⟨g1, g2⟩ := stepToolCall_next_inv impl fmt h1 h2 hstep
      exact ih s1 g1 g2
    · simp only [runToolCalls, hstep]
      constructor
      · intro s' h
        cases h
      · intro s' r h
        cases h
        exact (stepToolCall_halt_bound impl fmt h1 h2 hstep).1

theorem runTurns_tracker (impl : String → Args → ToolOutcome)
    (fmt : String → Args → String → String) (provider : Nat → ProviderResponse) :
    ∀ (fuel turn : Nat) (s : AgentState),
      ((runTurns impl fmt provider fuel turn s).1).tracker = s.tracker := by
  intro fuel
  induction fuel with
  | zero => intro turn s; rfl
  | succ n ih =>
    intro turn s
    rcases hp : provider turn with ⟨content, calls⟩ | ⟨e⟩
    · simp only [runTurns, hp]
      by_cases hc : calls.isEmpty
      · rw [if_pos hc]
      · rw [if_neg hc]
        rcases hrtc : runToolCalls impl fmt
            { s with messages := s.messages ++
                [{ role := "assistant", content := content, tool_calls := calls }] } calls
          with s2 | ⟨s2, r2⟩
        · simp only [hrtc]
          rw [ih (turn + 1) s2]
          have ht := runToolCalls_tracker impl fmt calls
            { s with messages := s.messages ++
                [{ role := "assistant", content := content, tool_calls := calls }] }
          rw [hrtc] at ht
          exact ht
        · simp only [hrtc]
          have ht := runToolCalls_tracker impl fmt calls
            { s with messages := s.messages ++
                [{ role := "assistant", content := content, tool_calls := calls }] }
          rw [hrtc] at ht
          exact ht
    · simp only [runTurns, hp]

theorem runTurns_executed_bound (impl : String → Args → ToolOutcome)
    (fmt : String → Args → String → String) (provider : Nat → ProviderResponse) :
    ∀ (fuel turn : Nat) (s : AgentState),
      s.executed.length ≤ s.toolCallsCount → s.toolCallsCount ≤ MAX_TOOL_CALLS →
      ((runTurns impl fmt provider fuel turn s).1).executed.length ≤ MAX_TOOL_CALLS := by
  intro fuel
  induction fuel with
  | zero => intro turn s h1 h2; exact le_trans h1 h2
  | succ n ih =>
    intro turn s h1 h2
    rcases hp : provider turn with ⟨content, calls⟩ | ⟨e⟩
    · simp only [runTurns, hp]
      by_cases hc : calls.isEmpty
      · rw [if_pos hc]
        exact le_trans h1 h2
      · rw [if_neg hc]
        rcases hrtc : runToolCalls impl fmt
            { s with messages := s.messages ++
                [{ role := "assistant", content := content, tool_calls := calls }] } calls
          with s2 | ⟨s2, r2⟩
        · simp only [hrtc]
          obtain ⟨g1, g2⟩ :=
            (runToolCalls_inv impl fmt calls
              { s with messages := s.messages ++
                  [{ role := "assistant", content := content, tool_calls := calls }] }
              h1 h2).1 s2 hrtc
          exact ih (turn + 1) s2 g1 g2
        · simp only [hrtc]
          exact (runToolCalls_inv impl fmt calls
            { s with messages := s.messages ++
                [{ role := "assistant", content := content, tool_calls := calls }] }
            h1 h2).2 s2 r2 hrtc
    · simp only [runTurns, hp]
      exact le_trans h1 h2

/-! ## Concrete sessions used by the loop claims -/

/-- Tool behaviour that always succeeds with "ok". -/
def implOk : String → Args → ToolOutcome := fun _ _ => .ok "ok"

/-- Action formatting that just records the tool name. -/
def fmtName : String → Args → String → String := fun n _ _ => n

/-- A provider that always fails with a parseable rate-limit error. -/
def provFailC1 : Nat → ProviderResponse :=
  fun _ => .failure "Rate limit exceeded, retry in 5s"

/-- 51 requests with alternating tool names (loop detection never fires). -/
def altCalls : List ToolCall :=
  (List.range 51).map fun i =>
    { id := toString i, name := if i % 2 = 0 then "read_file" else "list_directory",
      args := [] }

/-- A provider that issues the 51 alternating requests in its first turn. -/
def provAlt : Nat → ProviderResponse := fun _ => .success "" altCalls

/-- 51 requests all naming the same tool. -/
def sameCalls : List ToolCall :=
  (List.range 51).map fun i => { id := toString i, name := "read_file", args := [] }

/-- A provider that issues the 51 identical requests in its first turn. -/
def provSame : Nat → ProviderResponse := fun _ => .success "" sameCalls

/-- A provider that requests the same tool three times, then answers. -/
def provRepeat : Nat → ProviderResponse := fun t =>
  if t = 0 then
    .success ""
      [{ id := "1", name := "read_file", args := [] },
       { id := "2", name := "read_file", args := [] },
       { id := "3", name := "read_file", args := [] }]
  else .success "done" []

/-- A provider that keeps requesting tools forever (alternating names). -/
def provEndless : Nat → ProviderResponse := fun t =>
  .success ""
    [{ id := toString t, name := if t % 2 = 0 then "read_file" else "list_directory",
       args := [] }]

/-- A session state that has already used the whole tool-call budget. -/
def stFull : AgentState :=
  { toolCallsCount := 50, recentTools := [], messages := [], toolActions := [],
    tracker := [], executed := [] }

/-- A session state that has just run the same tool twice. -/
def stTwo : AgentState :=
  { toolCallsCount := 2, recentTools := ["read_file", "read_file"], messages := [],
    toolActions := [], tracker := [], executed := ["read_file", "read_file"] }

/-! ## Claim C1 -/

/-- Claim C1 (amended): the Agent Loop never interacts with the Rate-Limit
Tracker: the tracker state is unchanged across any session, and a failed
provider call is caught by the per-turn handler and returned as the
"Error connecting to LLM" text — no limit is recorded and no pre-flight
check, sleep or retry happens. -/
theorem agent_loop_no_tracker_interaction (impl : String → Args → ToolOutcome)
    (fmt : String → Args → String → String) (provider : Nat → ProviderResponse)
    (sys : String) (history : List (String × String)) (prompt : String)
    (tracker : LimitsData) :
    (∀ st out, LiteLLMConnector.call true impl fmt provider sys history prompt tracker =
        .ok (st, out) → st.tracker = tracker) ∧
    (∀ e, provider 0 = .failure e →
       LiteLLMConnector.call true impl fmt provider sys history prompt tracker =
         .ok (initState sys history prompt tracker, "Error connecting to LLM: " ++ e)) := by
  constructor
  · intro st out h
    have h' : runTurns impl fmt provider MAX_TURNS 0 (initState sys history prompt tracker) =
        (st, out) := by
      simpa [LiteLLMConnector.call] using h
    have ht := runTurns_tracker impl fmt provider MAX_TURNS 0
      (initState sys history prompt tracker)
    rw [h'] at ht
    exact ht
  · intro e hp
    have hrun : runTurns impl fmt provider MAX_TURNS 0 (initState sys history prompt tracker) =
        (initState sys history prompt tracker, "Error connecting to LLM: " ++ e) := by
      rw [show (MAX_TURNS : Nat) = 39 + 1 from rfl]
      simp only [runTurns, hp]
    simp [LiteLLMConnector.call, hrun]

/-- Counterexample for C1 as stated: a session whose provider call fails
with a parseable rate-limit error text returns that text as the result;
afterwards the tracker still has no record for any provider — nothing was
recorded by any error handler — and `is_limited` is still false. -/
theorem agent_loop_rate_limit_not_recorded_counterexample :
    (LiteLLMConnector.call true implOk fmtName provFailC1 "sys" [] "hi" []).toOption.map
        (fun pr => (pr.2, lookupProv pr.1.tracker "litellm",
          (is_limited pr.1.tracker 1 "litellm").1)) =
      some ("Error connecting to LLM: Rate limit exceeded, retry in 5s", none, false) := rfl

/-- Witness for C1 (amended) on a concrete failing session. -/
theorem agent_loop_no_tracker_interaction_witness :
    LiteLLMConnector.call true implOk fmtName provFailC1 "sys" [] "hi" [] =
      .ok (initState "sys" [] "hi" [],
        "Error connecting to LLM: Rate limit exceeded, retry in 5s") ∧
    (initState "sys" [] "hi" [] : AgentState).tracker = [] := by
  have h2 := (agent_loop_no_tracker_interaction implOk fmtName provFailC1 "sys" [] "hi" []).2
    "Rate limit exceeded, retry in 5s" rfl
  exact ⟨h2, (agent_loop_no_tracker_interaction implOk fmtName provFailC1 "sys" [] "hi" []).1
    _ _ h2⟩

/-! ## Claim C2 -/

/-- Claim C2 (amended): every requested tool call increments the session's
tool-call counter, and the first call that pushes it past the hard cap of
50 ends the whole session with the fixed "too many tool calls" result
instead of executing; consequently every session executes at most 50
calls, and a session given 51 sequential requests that never trip loop
detection (e.g. alternating tool names) aborts with that result after
exactly 50 executions. -/
theorem tool_call_budget_spec (impl : String → Args → ToolOutcome)
    (fmt : String → Args → String → String) :
    (∀ s c, (stepToolCall impl fmt s c).state.toolCallsCount = s.toolCallsCount + 1) ∧
    (∀ s c, MAX_TOOL_CALLS ≤ s.toolCallsCount →
       stepToolCall impl fmt s c =
         .halt { s with toolCallsCount := s.toolCallsCount + 1 } tooManyToolCallsResult) ∧
    (∀ provider sys history prompt tracker,
       ((runTurns impl fmt provider MAX_TURNS 0
           (initState sys history prompt tracker)).1).executed.length ≤ MAX_TOOL_CALLS) ∧
    ((runTurns implOk fmtName provAlt MAX_TURNS 0 (initState "" [] "" [])).2 =
        tooManyToolCallsResult ∧
     (runTurns implOk fmtName provAlt MAX_TURNS 0
        (initState "" [] "" [])).1.executed.length = 50) := by
  refine ⟨stepToolCall_count impl fmt, stepToolCall_halt_of_cap impl fmt, ?_, rfl, rfl⟩
  intro provider sys history prompt tracker
  exact runTurns_executed_bound impl fmt provider MAX_TURNS 0 _ (Nat.le_refl 0)
    (Nat.zero_le _)

/-- Counterexample for C2 as stated: with 51 sequential requests that all
name the same tool, loop detection suppresses every third call, so the
session aborts with the "too many tool calls" result after only 34
executions, not exactly 50. -/
theorem tool_call_budget_counterexample :
    (runTurns implOk fmtName provSame MAX_TURNS 0 (initState "" [] "" [])).2 =
      tooManyToolCallsResult ∧
    (runTurns implOk fmtName provSame MAX_TURNS 0
      (initState "" [] "" [])).1.executed.length = 34 := ⟨rfl, rfl⟩

/-- Witness for C2 (amended): the 51st call of a session that has already
counted 50 requests is aborted, not executed. -/
theorem tool_call_budget_spec_witness :
    stepToolCall implOk fmtName stFull { id := "51", name := "read_file", args := [] } =
      .halt { stFull with toolCallsCount := 51 } tooManyToolCallsResult :=
  (tool_call_budget_spec implOk fmtName).2.1 stFull
    { id := "51", name := "read_file", args := [] } (by decide)

/-! ## Claim C3 -/

/-- Claim C3: whenever the capacity-3 ring buffer, after pushing the
requested tool's name, is full with all entries identical, that call is
not executed: the synthetic stop-and-summarize user-role message is
appended, the ring buffer is reset to empty, and the session continues
rather than aborting; concretely, a session whose provider requests the
same tool three times in a row executes only the first two calls, gets
the stop message injected, and still ends with the provider's final
answer. -/
theorem loop_detection_spec (impl : String → Args → ToolOutcome)
    (fmt : String → Args → String → String) :
    (∀ s c, s.toolCallsCount + 1 ≤ MAX_TOOL_CALLS →
       loopCond (pushRecent s.recentTools c.name) = true →
       stepToolCall impl fmt s c =
         .next { s with toolCallsCount := s.toolCallsCount + 1, recentTools := [],
                        messages := s.messages ++
                          [{ role := "user", content := stopMessage }] }) ∧
    ((runTurns implOk fmtName provRepeat MAX_TURNS 0 (initState "" [] "" [])).1.executed =
        ["read_file", "read_file"] ∧
     ({ role := "user", content := stopMessage } : Message) ∈
        (runTurns implOk fmtName provRepeat MAX_TURNS 0 (initState "" [] "" [])).1.messages ∧
     (runTurns implOk fmtName provRepeat MAX_TURNS 0 (initState "" [] "" [])).2 =
        "done" ++ buildToolFooter
          (runTurns implOk fmtName provRepeat MAX_TURNS 0
            (initState "" [] "" [])).1.toolActions) :=
  ⟨stepToolCall_suppress impl fmt, rfl, by decide, rfl⟩

/-- Witness for C3 on a concrete session state about to repeat a third
time. -/
theorem loop_detection_spec_witness :
    stepToolCall implOk fmtName stTwo { id := "3", name := "read_file", args := [] } =
      .next { stTwo with toolCallsCount := 3, recentTools := [],
                         messages := [{ role := "user", content := stopMessage }] } :=
  (loop_detection_spec implOk fmtName).1 stTwo
    { id := "3", name := "read_file", args := [] } (by decide) (by decide)

/-! ## Claim C8 -/

theorem pyTruncate_length_le (n : Nat) (s : String) : (pyTruncate n s).length ≤ n := by
  simp only [pyTruncate, String.length]
  exact List.length_take_le n s.data

/-- Tool behaviour that raises a `TypeError` (argument mismatch). -/
def implTypeErr : String → Args → ToolOutcome :=
  fun _ _ => .typeError "unexpected keyword argument"

/-- Claim C8: tool dispatch never raises to the agent loop: an unknown tool
name yields the descriptive "Unknown tool" string listing the registered
names, a `TypeError` from mismatched or missing arguments and any other
exception are caught and returned as textual error results, and the
tool-role message appended to the conversation always carries the dispatch
result truncated to 4000 characters. -/
theorem tool_dispatch_spec (impl : String → Args → ToolOutcome)
    (fmt : String → Args → String → String) :
    (∀ name args, TOOL_NAMES.contains name = false →
       dispatch impl name args =
         "Unknown tool: " ++ name ++ ". Available: " ++ String.intercalate ", " TOOL_NAMES) ∧
    (∀ name args e, TOOL_NAMES.contains name = true → impl name args = .typeError e →
       dispatch impl name args = "Error: Invalid arguments for " ++ name ++ ": " ++ e) ∧
    (∀ name args e, TOOL_NAMES.contains name = true → impl name args = .exn e →
       dispatch impl name args = "Error executing " ++ name ++ ": " ++ e) ∧
    (∀ s c, s.toolCallsCount + 1 ≤ MAX_TOOL_CALLS →
       loopCond (pushRecent s.recentTools c.name) = false →
       stepToolCall impl fmt s c =
         .next { s with toolCallsCount := s.toolCallsCount + 1,
                        recentTools := pushRecent s.recentTools c.name,
                        toolActions := s.toolActions ++
                          [fmt c.name c.args (pyTruncate 200 (dispatch impl c.name c.args))],
                        messages := s.messages ++
                          [{ role := "tool", tool_call_id := some c.id, name := some c.name,
                             content := pyTruncate 4000 (dispatch impl c.name c.args) }],
                        executed := s.executed ++ [c.name] }) ∧
    (∀ r, (pyTruncate 4000 r).length ≤ 4000) := by
  refine ⟨?_, ?_, ?_, stepToolCall_exec impl fmt, fun r => pyTruncate_length_le 4000 r⟩
  · intro name args h
    simp only [dispatch]
    rw [if_neg (fun hc => Bool.false_ne_true (h ▸ hc))]
  · intro name args e h1 h2
    simp only [dispatch]
    rw [if_pos h1, h2]
  · intro name args e h1 h2
    simp only [dispatch]
    rw [if_pos h1, h2]

/-- Witness for C8: an unknown tool, a `TypeError`, and an executed call's
truncated tool message, all concrete. -/
theorem tool_dispatch_spec_witness :
    dispatch implOk "frobnicate" [] =
      "Unknown tool: frobnicate. Available: " ++ String.intercalate ", " TOOL_NAMES ∧
    dispatch implTypeErr "read_file" [] =
      "Error: Invalid arguments for read_file: unexpected keyword argument" ∧
    stepToolCall implOk fmtName stTwo { id := "3", name := "list_directory", args := [] } =
      .next { stTwo with toolCallsCount := 3,
                         recentTools := pushRecent stTwo.recentTools "list_directory",
                         toolActions := ["list_directory"],
                         messages := [{ role := "tool", tool_call_id := some "3",
                                        name := some "list_directory",
                                        content := pyTruncate 4000
                                          (dispatch implOk "list_directory" []) }],
                         executed := ["read_file", "read_file", "list_directory"] } ∧
    (pyTruncate 4000 "ok").length ≤ 4000 := by
  obtain ⟨u, t, -, st, tr⟩ := tool_dispatch_spec implOk fmtName
  refine ⟨u "frobnicate" [] (by decide), ?_, ?_, tr "ok"⟩
  · exact (tool_dispatch_spec implTypeErr fmtName).2.1 "read_file" [] "unexpected keyword argument"
      (by decide) rfl
  · exact st stTwo { id := "3", name := "list_directory", args := [] } (by decide) (by decide)

/-! ## Claim C9 -/

/-- Claim C9 (amended): when the lazy litellm import succeeds, the entry
point returns a result string for every input — every failure mode,
including a provider error, resolves to text — and a session that
exhausts the 40-turn budget without a final answer gets the fixed message
"Error: Maximum turns reached." rather than an exception; when the import
fails, however, the method raises `LLMError("litellm not installed")`
instead of returning a string. -/
theorem agent_loop_returns_text_spec (impl : String → Args → ToolOutcome)
    (fmt : String → Args → String → String) (provider : Nat → ProviderResponse)
    (sys : String) (history : List (String × String)) (prompt : String)
    (tracker : LimitsData) :
    (∃ st out, LiteLLMConnector.call true impl fmt provider sys history prompt tracker =
        .ok (st, out)) ∧
    (LiteLLMConnector.call false impl fmt provider sys history prompt tracker =
        .error "litellm not installed") ∧
    (∀ turn s, runTurns impl fmt provider 0 turn s = (s, "Error: Maximum turns reached.")) ∧
    ((runTurns implOk fmtName provEndless MAX_TURNS 0 (initState "" [] "" [])).2 =
        "Error: Maximum turns reached.") := by
  exact ⟨⟨_, _, rfl⟩, rfl, fun turn s => rfl, rfl⟩

/-- Counterexample for C9 as stated: with litellm not importable the entry
point does throw (`LLMError("litellm not installed")`) instead of
returning a string. -/
theorem agent_loop_throws_counterexample :
    LiteLLMConnector.call false implOk fmtName provEndless "" [] "" [] =
      .error "litellm not installed" := rfl

/-! ## Claim C10 -/

/-- Claim C10: every requested tool call increments the session counter
before loop detection runs, so a suppressed call still consumes the
budget (the suppression branch keeps the incremented counter and leaves
the executed list unchanged); consequently a provider issuing 51
identical requests gets the session aborted with the "too many tool
calls" result after only 34 actual executions — strictly fewer than
50. -/
theorem suppressed_calls_consume_budget_spec (impl : String → Args → ToolOutcome)
    (fmt : String → Args → String → String) :
    (∀ s c, (stepToolCall impl fmt s c).state.toolCallsCount = s.toolCallsCount + 1) ∧
    (∀ s c, s.toolCallsCount + 1 ≤ MAX_TOOL_CALLS →
       loopCond (pushRecent s.recentTools c.name) = true →
       stepToolCall impl fmt s c =
         .next { s with toolCallsCount := s.toolCallsCount + 1, recentTools := [],
                        messages := s.messages ++
                          [{ role := "user", content := stopMessage }] }) ∧
    ((runTurns implOk fmtName provSame MAX_TURNS 0 (initState "" [] "" [])).2 =
        tooManyToolCallsResult ∧
     (runTurns implOk fmtName provSame MAX_TURNS 0
        (initState "" [] "" [])).1.executed.length = 34 ∧
     34 < MAX_TOOL_CALLS) :=
  ⟨stepToolCall_count impl fmt, stepToolCall_suppress impl fmt, rfl, rfl, by decide⟩

/-- Witness for C10: the suppressed third repetition still increments the
counter from 2 to 3 while executing nothing. -/
theorem suppressed_calls_consume_budget_spec_witness :
    (stepToolCall implOk fmtName stTwo
      { id := "3", name := "read_file", args := [] }).state.toolCallsCount =
        stTwo.toolCallsCount + 1 ∧
    stepToolCall implOk fmtName stTwo { id := "3", name := "read_file", args := [] } =
      .next { stTwo with toolCallsCount := 3, recentTools := [],
                         messages := [{ role := "user", content := stopMessage }] } :=
  ⟨(suppressed_calls_consume_budget_spec implOk fmtName).1 stTwo _,
   (suppressed_calls_consume_budget_spec implOk fmtName).2.1 stTwo
     { id := "3", name := "read_file", args := [] } (by decide) (by decide)⟩
